import Mathlib

/-!
Verification of the sidero JSON-RPC (MCP) protocol adapter.

This file is a shallow embedding of the protocol core of the repository:

* `src/protocol.rs` — the wire types (`JsonRpcMessage` untagged union,
  `RequestId`, `JsonRpcError`, tool/prompt/resource descriptors) together
  with their serde (de)serialization behaviour, modelled as explicit
  `encode…`/`decode…` functions over a `Json` value type.  serde_json's
  text layer (`to_string`/`from_str`) factors through `serde_json::Value`;
  we model (de)serialization at the value level.  JSON numbers are modelled
  as `Int` (the protocol only uses `i64` ids and `i32` codes).
* `src/main.rs` — the transport loop, modelled as a per-line step function
  `processLine` and its iteration `runLoop`.  The dispatch of a request
  (`Handler::handle_request`, which performs collaborator I/O) is a
  parameter of the loop model.
* `src/handler.rs` — the dispatch logic for `tools/list`, `tools/call` and
  `resources/read`.  External collaborators (the semgrep subprocess, the
  HTTP client, the environment) are abstracted: a handler is modelled up to
  the collaborator call it performs, returning an explicit description of
  that call (`ToolEffect`, or the fetched URL for `resources/read`).
-/

/-- `serde_json::Value`, with numbers restricted to integers (the protocol
only ever decodes `i64` request ids and `i32` error codes). -/
inductive Json where
  | null : Json
  | bool : Bool → Json
  | num : Int → Json
  | str : String → Json
  | arr : List Json → Json
  | obj : List (String × Json) → Json
deriving Repr

/-- `RequestId` from `src/protocol.rs`: untagged union of an `i64` and a
`String`. -/
inductive RequestId where
  | Number : Int → RequestId
  | String : String → RequestId
deriving Repr, DecidableEq

/-- `JsonRpcError` from `src/protocol.rs`: `code: i32`, `message: String`,
`data: Option<Value>` (the `data` field carries serde's
`skip_serializing_if = "Option::is_none"`). -/
structure JsonRpcError where
  code : Int
  message : String
  data : Option Json
deriving Repr

/-- `JsonRpcRequest` from `src/protocol.rs` (`params` carries
`skip_serializing_if`). -/
structure JsonRpcRequest where
  jsonrpc : String
  id : RequestId
  method : String
  params : Option Json
deriving Repr

/-- `JsonRpcNotification` from `src/protocol.rs`. -/
structure JsonRpcNotification where
  jsonrpc : String
  method : String
  params : Option Json
deriving Repr

/-- `JsonRpcResponse` from `src/protocol.rs`. -/
structure JsonRpcResponse where
  jsonrpc : String
  id : RequestId
  result : Json
deriving Repr

/-- `JsonRpcErrorResponse` from `src/protocol.rs`.  Note that the `id`
field does NOT carry `skip_serializing_if`, so an absent id is serialized
as JSON `null`. -/
structure JsonRpcErrorResponse where
  jsonrpc : String
  id : Option RequestId
  error : JsonRpcError
deriving Repr

/-- `JsonRpcMessage` from `src/protocol.rs`: `#[serde(untagged)]`, variant
declaration order `Request`, `Response`, `Notification`, `Error` (serde
tries the variants in this order when decoding). -/
inductive JsonRpcMessage where
  | request : JsonRpcRequest → JsonRpcMessage
  | response : JsonRpcResponse → JsonRpcMessage
  | notification : JsonRpcNotification → JsonRpcMessage
  | error : JsonRpcErrorResponse → JsonRpcMessage
deriving Repr

/-! ### Serialization (serde `Serialize`), at the `Json` value level -/

/-- An optional struct field with `skip_serializing_if = "Option::is_none"`:
omitted entirely when `none`. -/
def optField (k : String) : Option Json → List (String × Json)
  | none => []
  | some v => [(k, v)]

/-- `RequestId` is `#[serde(untagged)]`: a bare integer or bare string. -/
def encodeRequestId : RequestId → Json
  | .Number n => .num n
  | .String s => .str s

def encodeRpcError (e : JsonRpcError) : Json :=
  .obj ([("code", .num e.code), ("message", .str e.message)] ++ optField "data" e.data)

def encodeRequest (r : JsonRpcRequest) : Json :=
  .obj ([("jsonrpc", .str r.jsonrpc), ("id", encodeRequestId r.id),
         ("method", .str r.method)] ++ optField "params" r.params)

def encodeNotification (n : JsonRpcNotification) : Json :=
  .obj ([("jsonrpc", .str n.jsonrpc), ("method", .str n.method)] ++ optField "params" n.params)

def encodeResponse (r : JsonRpcResponse) : Json :=
  .obj [("jsonrpc", .str r.jsonrpc), ("id", encodeRequestId r.id), ("result", r.result)]

/-- The `id : Option<RequestId>` field of `JsonRpcErrorResponse` has no
`skip_serializing_if`, so serde serializes `None` as `null`. -/
def encodeErrorResponse (e : JsonRpcErrorResponse) : Json :=
  .obj [("jsonrpc", .str e.jsonrpc),
        ("id", match e.id with | none => .null | some i => encodeRequestId i),
        ("error", encodeRpcError e.error)]

def encodeMessage : JsonRpcMessage → Json
  | .request r => encodeRequest r
  | .response r => encodeResponse r
  | .notification n => encodeNotification n
  | .error e => encodeErrorResponse e

/-! ### Deserialization (serde `Deserialize`), at the `Json` value level -/

/-- First-occurrence key lookup in a JSON object's fields. -/
def jlookup (k : String) : List (String × Json) → Option Json
  | [] => none
  | (k', v) :: rest => if k' = k then some v else jlookup k rest

/-- `Value::get(key)` / object field access: `none` on non-objects. -/
def jget (k : String) : Json → Option Json
  | .obj fields => jlookup k fields
  | _ => none

def asStr : Json → Option String
  | .str s => some s
  | _ => none

def asInt : Json → Option Int
  | .num n => some n
  | _ => none

/-- Untagged `RequestId`: a JSON number decodes to `Number`, a JSON string
to `String`; anything else fails. -/
def decodeRequestId : Json → Option RequestId
  | .num n => some (.Number n)
  | .str s => some (.String s)
  | _ => none

/-- serde's handling of an `Option<Value>` struct field: a missing field
and a `null` value both decode to `None`. -/
def decodeOptValueField (k : String) (fields : List (String × Json)) : Option Json :=
  match jlookup k fields with
  | none => none
  | some .null => none
  | some v => some v

/-- serde's handling of an `Option<RequestId>` struct field: missing or
`null` gives `none`; a present non-null value must decode as a
`RequestId`, otherwise the whole struct fails to decode. -/
def decodeOptIdField (k : String) (fields : List (String × Json)) : Option (Option RequestId) :=
  match jlookup k fields with
  | none => some none
  | some .null => some none
  | some v => (decodeRequestId v).map some

def decodeRpcError (j : Json) : Option JsonRpcError :=
  match j with
  | .obj fields => do
    let code ← jlookup "code" fields >>= asInt
    let message ← jlookup "message" fields >>= asStr
    pure ⟨code, message, decodeOptValueField "data" fields⟩
  | _ => none

def decodeRequest (j : Json) : Option JsonRpcRequest :=
  match j with
  | .obj fields => do
    let method ← jlookup "method" fields >>= asStr
    let id ← jlookup "id" fields >>= decodeRequestId
    let jsonrpc ← jlookup "jsonrpc" fields >>= asStr
    pure ⟨jsonrpc, id, method, decodeOptValueField "params" fields⟩
  | _ => none

def decodeResponse (j : Json) : Option JsonRpcResponse :=
  match j with
  | .obj fields => do
    let result ← jlookup "result" fields
    let id ← jlookup "id" fields >>= decodeRequestId
    let jsonrpc ← jlookup "jsonrpc" fields >>= asStr
    pure ⟨jsonrpc, id, result⟩
  | _ => none

def decodeNotification (j : Json) : Option JsonRpcNotification :=
  match j with
  | .obj fields => do
    let method ← jlookup "method" fields >>= asStr
    let jsonrpc ← jlookup "jsonrpc" fields >>= asStr
    pure ⟨jsonrpc, method, decodeOptValueField "params" fields⟩
  | _ => none

def decodeErrorResponse (j : Json) : Option JsonRpcErrorResponse :=
  match j with
  | .obj fields => do
    let err ← jlookup "error" fields >>= decodeRpcError
    let id ← decodeOptIdField "id" fields
    let jsonrpc ← jlookup "jsonrpc" fields >>= asStr
    pure ⟨jsonrpc, id, err⟩
  | _ => none

/-- The untagged `JsonRpcMessage` decoder: serde tries the variants in
declaration order — `Request`, `Response`, `Notification`, `Error` — and
keeps the first that decodes. -/
def decodeMessage (j : Json) : Option JsonRpcMessage :=
  ((decodeRequest j).map .request) <|>
  ((decodeResponse j).map .response) <|>
  ((decodeNotification j).map .notification) <|>
  ((decodeErrorResponse j).map .error)

/-! ### Transport loop (`src/main.rs`)

The loop reads a line, trims it, skips it when empty, and otherwise runs
`serde_json::from_str::<JsonRpcMessage>` on it.  The text-level JSON parse
is external (serde_json); we classify a raw line by its parse outcome:
`emptyLine` (trims to the empty string), `invalid` (non-empty but not
well-formed JSON), or `json v` (non-empty, parses to the value `v`).
`from_str::<JsonRpcMessage>` then corresponds to `decodeMessage v`; both a
text-level parse failure and a value matching none of the four variants
land in the `Err` branch of the `match` in `main.rs`. -/

inductive ParsedLine where
  | emptyLine : ParsedLine
  | invalid : ParsedLine
  | json : Json → ParsedLine

/-- The ErrorResponse built in `src/main.rs` lines 88–96 for a line that
fails to parse: code −32700, message "Parse error", absent id. -/
def parseErrorResponse : JsonRpcMessage :=
  .error ⟨"2.0", none, ⟨-32700, "Parse error", none⟩⟩

/-- One iteration of the loop body of `main` (`src/main.rs` lines 38–100),
given the parse outcome of the line just read.  `dispatch` abstracts
`Handler::handle_request` (which performs collaborator I/O); the returned
list is the sequence of messages written to stdout for this line. -/
def processLine (dispatch : JsonRpcRequest → Except JsonRpcError Json) :
    ParsedLine → List JsonRpcMessage
  | .emptyLine => []
  | .invalid => [parseErrorResponse]
  | .json v =>
    match decodeMessage v with
    | some (.request req) =>
      match dispatch req with
      | .ok result => [.response ⟨"2.0", req.id, result⟩]
      | .error err => [.error ⟨"2.0", some req.id, err⟩]
    | some (.notification _) => []
    | some _ => []
    | none => [parseErrorResponse]

/-- The whole loop over a finite input stream: the concatenation, in
order, of the messages emitted for each line. -/
def runLoop (dispatch : JsonRpcRequest → Except JsonRpcError Json) :
    List ParsedLine → List JsonRpcMessage
  | [] => []
  | l :: rest => processLine dispatch l ++ runLoop dispatch rest

/-- The correlation identifier carried by an outgoing message. -/
def messageId : JsonRpcMessage → Option RequestId
  | .request r => some r.id
  | .response r => some r.id
  | .notification _ => none
  | .error e => e.id

/-! ### Rust string primitives used by `handle_read_resource`

Rust's `str::starts_with`/`ends_with`/`split('/')` operate on the
character sequence; we model a `&str` by its list of characters
(`String.data`). `split` keeps empty substrings, exactly like Rust's. -/

def rsStartsWith (s pre : String) : Bool := pre.data.isPrefixOf s.data

def rsEndsWith (s suf : String) : Bool := suf.data.isSuffixOf s.data

/-- Rust `str::split(c)`: splits at every occurrence of `c`, keeping empty
pieces; the result is always non-empty. -/
def rsSplit (c : Char) : List Char → List (List Char)
  | [] => [[]]
  | x :: xs =>
    if x = c then [] :: rsSplit c xs
    else
      match rsSplit c xs with
      | [] => [[x]]
      | h :: t => (x :: h) :: t

/-! ### Dispatch handlers (`src/handler.rs`)

The handlers call external collaborators (`SemgrepWrapper`, `ApiClient`,
the process environment).  Each handler is modelled up to its collaborator
call: the success value of `handle_call_tool` is the collaborator
invocation it performs (a `ToolEffect`), and the success value of
`handle_read_resource` is the URL it passes to `ApiClient::fetch_url`.
The validation and routing logic preceding the collaborator call is
translated in full. -/

/-- The collaborator call selected by `handle_call_tool`. -/
inductive ToolEffect where
  | getVersion : ToolEffect
  | supportedLanguages : ToolEffect
  | scan : Option String → List String → ToolEffect
  | scanWithCustomRule : String → List String → ToolEffect
  | dumpAst : String → String → ToolEffect
  | getFindings : String → List (String × Json) → ToolEffect
deriving Repr

/-- `CallToolParams` from `src/protocol.rs`. -/
structure CallToolParams where
  name : String
  arguments : Option Json

/-- serde decode of `CallToolParams` (required `name: String`, optional
`arguments: Option<Value>`). -/
def decodeCallToolParams (j : Json) : Option CallToolParams :=
  match j with
  | .obj fields => do
    let name ← jlookup "name" fields >>= asStr
    pure ⟨name, decodeOptValueField "arguments" fields⟩
  | _ => none

/-- `serde_json::from_value::<Vec<String>>`: an array whose elements are
all strings; anything else fails. -/
def decodeStringList : Json → Option (List String)
  | .arr xs => xs.mapM asStr
  | _ => none

/-- The `-32602` error produced when serde fails to decode a handler's
params struct.  The source formats `"Invalid params: {}"` with serde's own
error text; that library-generated suffix is not modelled. -/
def invalidParamsDecodeError : JsonRpcError := ⟨-32602, "Invalid params", none⟩

def isNull : Json → Bool
  | .null => true
  | _ => false

def isArr : Json → Bool
  | .arr _ => true
  | _ => false

def arrElems : Json → List Json
  | .arr xs => xs
  | _ => []

/-- `handler.rs` line 162: flatten the `repos` array to a comma-joined
string of its string elements. -/
def joinRepos (xs : List Json) : String :=
  String.intercalate "," (xs.filterMap asStr)

/-- The query map built by the `semgrep_findings` branch
(`handler.rs` lines 158–168): `repos` arrays are comma-joined, `null`
values are dropped, everything else passes through verbatim.  (The source
collects into a `serde_json::Map`; key ordering of that map is not
modelled — no claim depends on it.) -/
def buildFindingsQuery (args : Json) : List (String × Json) :=
  match args with
  | .obj fields =>
    fields.foldl (fun q kv =>
      if kv.1 == "repos" && isArr kv.2 then
        q ++ [(kv.1, Json.str (joinRepos (arrElems kv.2)))]
      else if isNull kv.2 then q
      else q ++ [kv]) []
  | _ => []

/-- `Handler::handle_call_tool` (`src/handler.rs` lines 115–174), up to
the collaborator call it selects.  `env` abstracts `std::env::var`
(read-only environment lookup for `SEMGREP_APP_TOKEN`). -/
def handle_call_tool (env : String → Option String) (params : Option Json) :
    Except JsonRpcError ToolEffect :=
  match decodeCallToolParams (params.getD (.obj [])) with
  | none => .error invalidParamsDecodeError
  | some p =>
    match p.name with
    | "get_version" => .ok .getVersion
    | "supported_languages" => .ok .supportedLanguages
    | "semgrep_scan" =>
      let args := p.arguments.getD (.obj [])
      match decodeStringList ((jget "paths" args).getD (.arr [])) with
      | none => .error ⟨-32602, "Invalid paths", none⟩
      | some paths =>
        let config := (jget "config" args).bind asStr
        .ok (.scan config paths)
    | "semgrep_scan_with_custom_rule" =>
      let args := p.arguments.getD (.obj [])
      match (jget "rule" args).bind asStr with
      | none => .error ⟨-32602, "Missing rule", none⟩
      | some rule =>
        match decodeStringList ((jget "code_files" args).getD (.arr [])) with
        | none => .error ⟨-32602, "Invalid code_files", none⟩
        | some files => .ok (.scanWithCustomRule rule files)
    | "get_abstract_syntax_tree" =>
      let args := p.arguments.getD (.obj [])
      match (jget "code" args).bind asStr with
      | none => .error ⟨-32602, "Missing code", none⟩
      | some code =>
        match (jget "language" args).bind asStr with
        | none => .error ⟨-32602, "Missing language", none⟩
        | some lang => .ok (.dumpAst code lang)
    | "semgrep_findings" =>
      match env "SEMGREP_APP_TOKEN" with
      | none => .error ⟨-32603, "SEMGREP_APP_TOKEN not set", none⟩
      | some token =>
        let args := p.arguments.getD (.obj [])
        .ok (.getFindings token (buildFindingsQuery args))
    | other => .error ⟨-32601, "Tool not found: " ++ other, none⟩

/-- `ReadResourceParams` from `src/protocol.rs`. -/
structure ReadResourceParams where
  uri : String

def decodeReadResourceParams (j : Json) : Option ReadResourceParams :=
  match j with
  | .obj fields => do
    let uri ← jlookup "uri" fields >>= asStr
    pure ⟨uri⟩
  | _ => none

def schemaUrl : String :=
  "https://raw.githubusercontent.com/semgrep/semgrep-interfaces/refs/heads/main/rule_schema_v1.yaml"

/-- `Handler::handle_read_resource` (`src/handler.rs` lines 235–266), up
to the collaborator call: the success value is the URL passed to
`ApiClient::fetch_url`. -/
def handle_read_resource (params : Option Json) : Except JsonRpcError String :=
  match decodeReadResourceParams (params.getD (.obj [])) with
  | none => .error invalidParamsDecodeError
  | some p =>
    let uri := p.uri
    if uri = "semgrep://rule/schema" then
      .ok schemaUrl
    else if rsStartsWith uri "semgrep://rule/" && rsEndsWith uri "/yaml" then
      let parts := rsSplit '/' uri.data
      if 4 ≤ parts.length then
        .ok ("https://semgrep.dev/c/r/" ++ String.mk (parts.getD 2 []))
      else
        .error ⟨-32602, "Invalid resource URI", none⟩
    else
      .error ⟨-32602, "Resource not found", none⟩

/-! ### `tools/list` (`src/handler.rs` lines 48–113) -/

/-- `Tool` from `src/protocol.rs`: `name`, `description: Option<String>`
(no skip attribute, so `None` would serialize as `null`), `inputSchema`. -/
structure Tool where
  name : String
  description : Option String
  inputSchema : Json
deriving Repr

def encodeTool (t : Tool) : Json :=
  .obj [("name", .str t.name),
        ("description", match t.description with | none => .null | some d => .str d),
        ("inputSchema", t.inputSchema)]

/-- The static tool registry of `handle_list_tools`, in declared order,
with the `json!` input schemas translated field-for-field.  (The source
builds the schemas as `serde_json::Value` maps; map key ordering is not
modelled — no claim depends on it.) -/
def toolsList : List Tool :=
  [ { name := "semgrep_scan",
      description := some "Run a Semgrep scan on specific paths",
      inputSchema := .obj
        [("type", .str "object"),
         ("properties", .obj
           [("paths", .obj [("type", .str "array"),
                            ("items", .obj [("type", .str "string")]),
                            ("description", .str "List of file paths to scan")]),
            ("config", .obj [("type", .str "string"),
                             ("description", .str "Rule configuration")])]),
         ("required", .arr [.str "paths"])] },
    { name := "semgrep_scan_with_custom_rule",
      description := some "Run a scan with a custom ad-hoc rule",
      inputSchema := .obj
        [("type", .str "object"),
         ("properties", .obj
           [("rule", .obj [("type", .str "string"),
                           ("description", .str "YAML rule content")]),
            ("code_files", .obj [("type", .str "array"),
                                 ("items", .obj [("type", .str "string")]),
                                 ("description", .str "Files to scan")])]),
         ("required", .arr [.str "rule", .str "code_files"])] },
    { name := "get_abstract_syntax_tree",
      description := some "Get the AST of a code snippet",
      inputSchema := .obj
        [("type", .str "object"),
         ("properties", .obj
           [("code", .obj [("type", .str "string"),
                           ("description", .str "Code content")]),
            ("language", .obj [("type", .str "string"),
                               ("description", .str "Language of the code")])]),
         ("required", .arr [.str "code", .str "language"])] },
    { name := "semgrep_findings",
      description := some "Fetch Semgrep findings",
      inputSchema := .obj
        [("type", .str "object"),
         ("properties", .obj
           [("issue_type", .obj [("type", .str "string")]),
            ("status", .obj [("type", .str "string")]),
            ("repos", .obj [("type", .str "array"),
                            ("items", .obj [("type", .str "string")])]),
            ("severities", .obj [("type", .str "array"),
                                 ("items", .obj [("type", .str "string")])])]),
         ("required", .arr [])] },
    { name := "get_version",
      description := some "Get Semgrep version",
      inputSchema := .obj [("type", .str "object"), ("properties", .obj [])] },
    { name := "supported_languages",
      description := some "List supported languages",
      inputSchema := .obj [("type", .str "object"), ("properties", .obj [])] } ]

/-- `Handler::handle_list_tools`: unconditionally returns
`Ok(to_value(ListToolsResult { tools }))`.  It takes no parameters and
calls no collaborator. -/
def handle_list_tools : Except JsonRpcError Json :=
  .ok (.obj [("tools", .arr (toolsList.map encodeTool))])

/-! ### Helper lemmas -/

/-- Computation shape of `handle_call_tool` for a `semgrep_scan` call. -/
theorem handle_call_tool_scan_eq (env : String → Option String)
    (argFields : List (String × Json)) :
    handle_call_tool env
        (some (.obj [("name", .str "semgrep_scan"), ("arguments", .obj argFields)])) =
      match decodeStringList ((jlookup "paths" argFields).getD (.arr [])) with
      | none => .error ⟨-32602, "Invalid paths", none⟩
      | some paths => .ok (.scan ((jlookup "config" argFields).bind asStr) paths) := rfl

/-- Computation shape of `handle_call_tool` for a
`semgrep_scan_with_custom_rule` call. -/
theorem handle_call_tool_custom_rule_eq (env : String → Option String)
    (argFields : List (String × Json)) :
    handle_call_tool env
        (some (.obj [("name", .str "semgrep_scan_with_custom_rule"),
                     ("arguments", .obj argFields)])) =
      match (jlookup "rule" argFields).bind asStr with
      | none => .error ⟨-32602, "Missing rule", none⟩
      | some rule =>
        match decodeStringList ((jlookup "code_files" argFields).getD (.arr [])) with
        | none => .error ⟨-32602, "Invalid code_files", none⟩
        | some files => .ok (.scanWithCustomRule rule files) := rfl

/-- Computation shape of `handle_read_resource` for well-formed params. -/
theorem handle_read_resource_uri_eq (uri : String) :
    handle_read_resource (some (.obj [("uri", .str uri)])) =
      (if uri = "semgrep://rule/schema" then .ok schemaUrl
       else if rsStartsWith uri "semgrep://rule/" && rsEndsWith uri "/yaml" then
         if 4 ≤ (rsSplit '/' uri.data).length then
           .ok ("https://semgrep.dev/c/r/" ++ String.mk ((rsSplit '/' uri.data).getD 2 []))
         else .error ⟨-32602, "Invalid resource URI", none⟩
       else .error ⟨-32602, "Resource not found", none⟩) := rfl

/-- `rsSplit` produces one more piece than there are separator
occurrences, exactly as Rust's `str::split`. -/
theorem rsSplit_length (c : Char) (s : List Char) :
    (rsSplit c s).length = s.count c + 1 := by
  induction s with
  | nil => rfl
  | cons x xs ih =>
    rw [rsSplit]
    by_cases h : x = c
    · rw [if_pos h]
      simp [List.count_cons, h, ih]
    · rw [if_neg h]
      rcases heq : rsSplit c xs with _ | ⟨hd, tl⟩
      · rw [heq] at ih
        simp at ih
      · rw [heq] at ih
        simp only [List.length_cons] at ih ⊢
        have hcx : (c == x) = false := by
          simp [beq_iff_eq]
          exact fun e => h e.symm
        simp [List.count_cons, hcx, h]
        omega

/-- A string starting with `semgrep://rule/` contains at least three
slashes. -/
theorem count_slash_ge_of_rule_prefix (s : List Char)
    (h : ("semgrep://rule/".data).isPrefixOf s = true) : 3 ≤ s.count '/' := by
  have hp : List.IsPrefix ("semgrep://rule/".data) s :=
    List.isPrefixOf_iff_prefix.mp h
  have hle := hp.sublist.count_le '/'
  have h3 : ("semgrep://rule/".data).count '/' = 3 := by decide
  omega

/-! ### Claims about `resources/read` -/

/-- C4 counterexample: `resources/read` with `uri="semgrep://unknown"`
returns error code −32602 ("Resource not found"), not −32601 as the claim
states; and `uri="semgrep://rule/a/b/yaml"`, which does not match the
four-segment `semgrep://rule/{ruleId}/yaml` pattern, is fetched rather
than rejected with −32602. -/
theorem read_resource_unrecognized_uri_code :
    handle_read_resource (some (.obj [("uri", .str "semgrep://unknown")])) =
      Except.error ⟨-32602, "Resource not found", none⟩ ∧
    handle_read_resource (some (.obj [("uri", .str "semgrep://rule/a/b/yaml")])) =
      Except.ok "https://semgrep.dev/c/r/rule" :=
  ⟨rfl, rfl⟩

/-- C4 (amended): for `resources/read`, a URI that starts with
`semgrep://rule/` but does not end in `/yaml` (and is not the schema
literal) yields error code −32602 with message "Resource not found", and a
URI that does not start with `semgrep://rule/` also yields −32602
"Resource not found" (the code never returns −32601 here; every URI that
starts with `semgrep://rule/` and ends in `/yaml` is fetched instead, see
the C10 theorem). -/
theorem read_resource_error_codes (uri : String) :
    (rsStartsWith uri "semgrep://rule/" = true → rsEndsWith uri "/yaml" = false →
       uri ≠ "semgrep://rule/schema" →
       handle_read_resource (some (.obj [("uri", .str uri)])) =
         Except.error ⟨-32602, "Resource not found", none⟩) ∧
    (rsStartsWith uri "semgrep://rule/" = false →
       handle_read_resource (some (.obj [("uri", .str uri)])) =
         Except.error ⟨-32602, "Resource not found", none⟩) := by
  constructor
  · intro h1 h2 h3
    rw [handle_read_resource_uri_eq, if_neg h3]
    simp [h1, h2]
  · intro h1
    have h3 : uri ≠ "semgrep://rule/schema" := by
      intro e
      rw [e] at h1
      exact absurd h1 (by decide)
    rw [handle_read_resource_uri_eq, if_neg h3]
    simp [h1]

/-- Witness for the C4 theorem at `uri="semgrep://rule/bad"` (first part)
and `uri="semgrep://unknown2"` (second part). -/
theorem read_resource_error_codes_witness :
    (rsStartsWith "semgrep://rule/bad" "semgrep://rule/" = true ∧
     rsEndsWith "semgrep://rule/bad" "/yaml" = false ∧
     handle_read_resource (some (.obj [("uri", .str "semgrep://rule/bad")])) =
       Except.error ⟨-32602, "Resource not found", none⟩) ∧
    (rsStartsWith "semgrep://unknown2" "semgrep://rule/" = false ∧
     handle_read_resource (some (.obj [("uri", .str "semgrep://unknown2")])) =
       Except.error ⟨-32602, "Resource not found", none⟩) :=
  ⟨⟨by decide, by decide,
    (read_resource_error_codes "semgrep://rule/bad").1 (by decide) (by decide) (by decide)⟩,
   ⟨by decide,
    (read_resource_error_codes "semgrep://unknown2").2 (by decide)⟩⟩

/-- C5 (code bug): for the URI `semgrep://rule/p0001/yaml` the code passes
`https://semgrep.dev/c/r/rule` to the fetch collaborator — `parts[2]` of
the slash-split is the literal segment "rule" for every such URI — instead
of `https://semgrep.dev/c/r/p0001` (the rule id is `parts[3]`).  This
contradicts the source's own comment "Extract rule ID" directly above the
indexing (`src/handler.rs` lines 244–248). -/
theorem rule_yaml_fetch_wrong_segment :
    handle_read_resource (some (.obj [("uri", .str "semgrep://rule/p0001/yaml")])) =
      Except.ok "https://semgrep.dev/c/r/rule" ∧
    (rsSplit '/' "semgrep://rule/p0001/yaml".data).map (fun l => String.mk l) =
      ["semgrep:", "", "rule", "p0001", "yaml"] :=
  ⟨rfl, by decide⟩

/-- C10: every URI that starts with `semgrep://rule/` and ends with
`/yaml` splits on '/' into at least 4 segments (the prefix alone has three
slashes), so the `parts.len() >= 4` guard always holds and
`handle_read_resource` always reaches a fetch for such URIs: the −32602
"Invalid resource URI" branch is unreachable. -/
theorem rule_yaml_guard_always_holds (uri : String)
    (h1 : rsStartsWith uri "semgrep://rule/" = true)
    (h2 : rsEndsWith uri "/yaml" = true) :
    4 ≤ (rsSplit '/' uri.data).length ∧
    ∃ url, handle_read_resource (some (.obj [("uri", .str uri)])) = Except.ok url := by
  have hc : 3 ≤ uri.data.count '/' := count_slash_ge_of_rule_prefix uri.data h1
  have hlen : 4 ≤ (rsSplit '/' uri.data).length := by
    rw [rsSplit_length]
    omega
  refine ⟨hlen, ?_⟩
  rw [handle_read_resource_uri_eq]
  by_cases hs : uri = "semgrep://rule/schema"
  · exact ⟨schemaUrl, by rw [if_pos hs]⟩
  · refine ⟨"https://semgrep.dev/c/r/" ++ String.mk ((rsSplit '/' uri.data).getD 2 []), ?_⟩
    rw [if_neg hs, h1, h2]
    simp [hlen]

/-- Witness for C10 at `uri="semgrep://rule/p0001/yaml"`. -/
theorem rule_yaml_guard_always_holds_witness :
    rsStartsWith "semgrep://rule/p0001/yaml" "semgrep://rule/" = true ∧
    rsEndsWith "semgrep://rule/p0001/yaml" "/yaml" = true ∧
    (4 ≤ (rsSplit '/' "semgrep://rule/p0001/yaml".data).length ∧
     ∃ url, handle_read_resource
         (some (.obj [("uri", .str "semgrep://rule/p0001/yaml")])) = Except.ok url) :=
  ⟨by decide, by decide,
   rule_yaml_guard_always_holds "semgrep://rule/p0001/yaml" (by decide) (by decide)⟩

/-! ### Claims about the transport loop -/

/-- C1: a line whose JSON value decodes (via the untagged four-variant
decoder) to a Request produces exactly one emitted message — a Response
when dispatch succeeds, an ErrorResponse when it fails — whose correlation
identifier is the request's own `RequestId` value (`req.id` is cloned into
the reply, so equality of the `RequestId` value preserves its
integer/string variant); a line that decodes to a Notification produces
zero emitted messages.  `dispatch` ranges over all possible outcomes of
`Handler::handle_request`. -/
theorem transport_request_single_reply
    (dispatch : JsonRpcRequest → Except JsonRpcError Json) (v : Json) :
    (∀ req, decodeMessage v = some (.request req) →
      ∃ m, processLine dispatch (.json v) = [m] ∧ messageId m = some req.id ∧
        ((∃ r, dispatch req = .ok r ∧ m = .response ⟨"2.0", req.id, r⟩) ∨
         (∃ err, dispatch req = .error err ∧ m = .error ⟨"2.0", some req.id, err⟩))) ∧
    (∀ notif, decodeMessage v = some (.notification notif) →
      processLine dispatch (.json v) = []) := by
  constructor
  · intro req h
    cases hd : dispatch req with
    | ok r =>
      refine ⟨.response ⟨"2.0", req.id, r⟩, ?_, rfl, Or.inl ⟨r, rfl, rfl⟩⟩
      simp [processLine, h, hd]
    | error err =>
      refine ⟨.error ⟨"2.0", some req.id, err⟩, ?_, rfl, Or.inr ⟨err, rfl, rfl⟩⟩
      simp [processLine, h, hd]
  · intro notif h
    simp [processLine, h]

def okDispatch : JsonRpcRequest → Except JsonRpcError Json := fun _ => .ok .null

def pingRequestJson : Json :=
  .obj [("jsonrpc", .str "2.0"), ("id", .num 1), ("method", .str "ping")]

def pingRequest : JsonRpcRequest := ⟨"2.0", .Number 1, "ping", none⟩

def initializedNotifJson : Json :=
  .obj [("jsonrpc", .str "2.0"), ("method", .str "notifications/initialized")]

/-- Witness for C1: a concrete request line gets exactly one Response with
id 1; a concrete `notifications/initialized` line gets no reply. -/
theorem transport_request_single_reply_witness :
    (∃ m, processLine okDispatch (.json pingRequestJson) = [m] ∧
        messageId m = some pingRequest.id ∧
        ((∃ r, okDispatch pingRequest = .ok r ∧ m = .response ⟨"2.0", pingRequest.id, r⟩) ∨
         (∃ err, okDispatch pingRequest = .error err ∧
            m = .error ⟨"2.0", some pingRequest.id, err⟩))) ∧
    processLine okDispatch (.json initializedNotifJson) = [] :=
  ⟨(transport_request_single_reply okDispatch pingRequestJson).1 pingRequest rfl,
   (transport_request_single_reply okDispatch initializedNotifJson).2
     ⟨"2.0", "notifications/initialized", none⟩ rfl⟩

/-- The condition under which a line reaches the `Err` branch of
`serde_json::from_str::<JsonRpcMessage>` in `main`: it is not skipped as
empty, and it is either not well-formed JSON or a JSON value matching none
of the four untagged variants. -/
def parseFails : ParsedLine → Prop
  | .emptyLine => False
  | .invalid => True
  | .json v => decodeMessage v = none

/-- C2: a non-empty line that fails to parse as any of the four message
variants produces exactly one ErrorResponse, with code −32700, message
"Parse error" and absent correlation identifier, and the loop then
continues with the remaining lines. -/
theorem transport_parse_error_recovery
    (dispatch : JsonRpcRequest → Except JsonRpcError Json)
    (l : ParsedLine) (h : parseFails l) (rest : List ParsedLine) :
    processLine dispatch l = [parseErrorResponse] ∧
    parseErrorResponse = .error ⟨"2.0", none, ⟨-32700, "Parse error", none⟩⟩ ∧
    runLoop dispatch (l :: rest) = parseErrorResponse :: runLoop dispatch rest := by
  have h1 : processLine dispatch l = [parseErrorResponse] := by
    cases l with
    | emptyLine => exact absurd h (by simp [parseFails])
    | invalid => rfl
    | json v =>
      have hv : decodeMessage v = none := h
      simp [processLine, hv]
  refine ⟨h1, rfl, ?_⟩
  show processLine dispatch l ++ runLoop dispatch rest = _
  rw [h1]
  rfl

/-- Witness for C2 at a malformed line followed by one more line. -/
theorem transport_parse_error_recovery_witness :
    parseFails ParsedLine.invalid ∧
    (processLine okDispatch .invalid = [parseErrorResponse] ∧
     parseErrorResponse = .error ⟨"2.0", none, ⟨-32700, "Parse error", none⟩⟩ ∧
     runLoop okDispatch (.invalid :: [.emptyLine]) =
       parseErrorResponse :: runLoop okDispatch [.emptyLine]) :=
  ⟨trivial, transport_parse_error_recovery okDispatch .invalid trivial [.emptyLine]⟩

/-! ### Claims about `tools/call` -/

/-- C3 counterexample: `tools/call` with `name="semgrep_scan"` and
arguments `{}` (no `paths` key) is NOT rejected with −32602: the missing
`paths` defaults to the empty array and the scan collaborator is invoked
with an empty path list. -/
theorem scan_empty_arguments_accepted :
    handle_call_tool (fun _ => none)
        (some (.obj [("name", .str "semgrep_scan"), ("arguments", .obj [])])) =
      Except.ok (ToolEffect.scan none []) := rfl

/-- C3 (amended): for `tools/call` with `name="semgrep_scan"`, a missing
`paths` key defaults to the empty array and the scan collaborator is
invoked with no paths; the invalid-params error −32602 ("Invalid paths")
is returned — without invoking the scan collaborator — exactly when a
`paths` key is present whose value is not an array of strings. -/
theorem scan_paths_validation (env : String → Option String)
    (argFields : List (String × Json)) :
    (jlookup "paths" argFields = none →
      handle_call_tool env
          (some (.obj [("name", .str "semgrep_scan"), ("arguments", .obj argFields)])) =
        Except.ok (.scan ((jlookup "config" argFields).bind asStr) [])) ∧
    (∀ v, jlookup "paths" argFields = some v → decodeStringList v = none →
      handle_call_tool env
          (some (.obj [("name", .str "semgrep_scan"), ("arguments", .obj argFields)])) =
        Except.error ⟨-32602, "Invalid paths", none⟩) ∧
    (∀ v paths, jlookup "paths" argFields = some v → decodeStringList v = some paths →
      handle_call_tool env
          (some (.obj [("name", .str "semgrep_scan"), ("arguments", .obj argFields)])) =
        Except.ok (.scan ((jlookup "config" argFields).bind asStr) paths)) := by
  refine ⟨?_, ?_, ?_⟩
  · intro h
    rw [handle_call_tool_scan_eq, h]
    rfl
  · intro v h hv
    rw [handle_call_tool_scan_eq, h]
    simp [hv]
  · intro v paths h hv
    rw [handle_call_tool_scan_eq, h]
    simp [hv]

/-- Witness for C3 (amended) at `paths` present but numeric. -/
theorem scan_paths_validation_witness :
    jlookup "paths" [("paths", Json.num 3)] = some (Json.num 3) ∧
    decodeStringList (Json.num 3) = none ∧
    handle_call_tool (fun _ => none)
        (some (.obj [("name", .str "semgrep_scan"),
                     ("arguments", .obj [("paths", Json.num 3)])])) =
      Except.error ⟨-32602, "Invalid paths", none⟩ :=
  ⟨rfl, rfl,
   (scan_paths_validation (fun _ => none) [("paths", Json.num 3)]).2.1 (Json.num 3) rfl rfl⟩

/-- C6 counterexample: `tools/call` with
`name="semgrep_scan_with_custom_rule"` and a valid `rule` but no
`code_files` key is NOT rejected: `code_files` defaults to the empty array
and the scan collaborator is invoked. -/
theorem custom_rule_missing_code_files_accepted :
    handle_call_tool (fun _ => none)
        (some (.obj [("name", .str "semgrep_scan_with_custom_rule"),
                     ("arguments", .obj [("rule", .str "rules:")])])) =
      Except.ok (ToolEffect.scanWithCustomRule "rules:" []) := rfl

/-- C6 (amended): for `tools/call` with
`name="semgrep_scan_with_custom_rule"`, a missing or non-string `rule`
yields −32602 ("Missing rule"); a `code_files` key present whose value is
not an array of strings yields −32602 ("Invalid code_files"); but a
missing `code_files` key defaults to the empty array and is accepted. -/
theorem custom_rule_validation (env : String → Option String)
    (argFields : List (String × Json)) :
    ((jlookup "rule" argFields).bind asStr = none →
      handle_call_tool env
          (some (.obj [("name", .str "semgrep_scan_with_custom_rule"),
                       ("arguments", .obj argFields)])) =
        Except.error ⟨-32602, "Missing rule", none⟩) ∧
    (∀ r v, jlookup "rule" argFields = some (.str r) →
      jlookup "code_files" argFields = some v → decodeStringList v = none →
      handle_call_tool env
          (some (.obj [("name", .str "semgrep_scan_with_custom_rule"),
                       ("arguments", .obj argFields)])) =
        Except.error ⟨-32602, "Invalid code_files", none⟩) ∧
    (∀ r, jlookup "rule" argFields = some (.str r) →
      jlookup "code_files" argFields = none →
      handle_call_tool env
          (some (.obj [("name", .str "semgrep_scan_with_custom_rule"),
                       ("arguments", .obj argFields)])) =
        Except.ok (.scanWithCustomRule r [])) := by
  refine ⟨?_, ?_, ?_⟩
  · intro h
    rw [handle_call_tool_custom_rule_eq, h]
  · intro r v hr hv hd
    rw [handle_call_tool_custom_rule_eq, hr, hv]
    simp [asStr, hd]
  · intro r hr hc
    rw [handle_call_tool_custom_rule_eq, hr, hc]
    rfl

/-- Witness for C6 (amended): missing rule; numeric `code_files`; and
valid rule with missing `code_files`. -/
theorem custom_rule_validation_witness :
    ((jlookup "rule" ([] : List (String × Json))).bind asStr = none ∧
     handle_call_tool (fun _ => none)
         (some (.obj [("name", .str "semgrep_scan_with_custom_rule"),
                      ("arguments", .obj [])])) =
       Except.error ⟨-32602, "Missing rule", none⟩) ∧
    (jlookup "rule" [("rule", Json.str "r"), ("code_files", Json.num 0)] =
       some (Json.str "r") ∧
     jlookup "code_files" [("rule", Json.str "r"), ("code_files", Json.num 0)] =
       some (Json.num 0) ∧
     decodeStringList (Json.num 0) = none ∧
     handle_call_tool (fun _ => none)
         (some (.obj [("name", .str "semgrep_scan_with_custom_rule"),
                      ("arguments", .obj [("rule", Json.str "r"),
                                          ("code_files", Json.num 0)])])) =
       Except.error ⟨-32602, "Invalid code_files", none⟩) ∧
    (jlookup "rule" [("rule", Json.str "r")] = some (Json.str "r") ∧
     jlookup "code_files" [("rule", Json.str "r")] = none ∧
     handle_call_tool (fun _ => none)
         (some (.obj [("name", .str "semgrep_scan_with_custom_rule"),
                      ("arguments", .obj [("rule", Json.str "r")])])) =
       Except.ok (.scanWithCustomRule "r" [])) :=
  ⟨⟨rfl, (custom_rule_validation (fun _ => none) []).1 rfl⟩,
   ⟨rfl, rfl, rfl,
    (custom_rule_validation (fun _ => none)
      [("rule", Json.str "r"), ("code_files", Json.num 0)]).2.1 "r" (Json.num 0) rfl rfl rfl⟩,
   ⟨rfl, rfl,
    (custom_rule_validation (fun _ => none) [("rule", Json.str "r")]).2.2 "r" rfl rfl⟩⟩

/-- C7: `tools/list` always succeeds (it takes no parameters and calls no
collaborator) and returns the static registry in declared order, whose
names are exactly `semgrep_scan`, `semgrep_scan_with_custom_rule`,
`get_abstract_syntax_tree`, `semgrep_findings`, `get_version`,
`supported_languages`. -/
theorem tools_list_fixed_order :
    handle_list_tools = Except.ok (.obj [("tools", .arr (toolsList.map encodeTool))]) ∧
    toolsList.map Tool.name =
      ["semgrep_scan", "semgrep_scan_with_custom_rule", "get_abstract_syntax_tree",
       "semgrep_findings", "get_version", "supported_languages"] :=
  ⟨rfl, rfl⟩

/-! ### Claims about encoding and round-tripping -/

/-- C8 counterexample: an ErrorResponse with an absent correlation
identifier does NOT omit the id field — `id: Option<RequestId>` carries no
`skip_serializing_if`, so serde emits `"id": null` (as JSON-RPC 2.0 in
fact requires for parse errors). -/
theorem error_response_null_id_field :
    encodeMessage (.error ⟨"2.0", none, ⟨-32700, "Parse error", none⟩⟩) =
      .obj [("jsonrpc", .str "2.0"), ("id", .null),
            ("error", .obj [("code", .num (-32700)), ("message", .str "Parse error")])] ∧
    jget "id" (encodeMessage (.error ⟨"2.0", none, ⟨-32700, "Parse error", none⟩⟩)) =
      some .null :=
  ⟨rfl, rfl⟩

/-- C8 (amended): the fields marked with `skip_serializing_if` — a
Request's `params` and an error's `data` — are omitted entirely when
absent, and a `RequestId` serializes as a bare integer or bare string with
no wrapper; but an ErrorResponse with an absent correlation identifier
serializes the id field as `null` rather than omitting it. -/
theorem encoding_optional_fields (req : JsonRpcRequest) (er : JsonRpcError)
    (e : JsonRpcErrorResponse) (hp : req.params = none) (hd : er.data = none)
    (he : e.id = none) :
    jget "params" (encodeRequest req) = none ∧
    jget "data" (encodeRpcError er) = none ∧
    jget "id" (encodeErrorResponse e) = some .null ∧
    (∀ n, encodeRequestId (.Number n) = .num n) ∧
    (∀ s, encodeRequestId (.String s) = .str s) := by
  refine ⟨?_, ?_, ?_, fun _ => rfl, fun _ => rfl⟩
  · simp only [encodeRequest, hp]
    rfl
  · simp only [encodeRpcError, hd]
    rfl
  · simp only [encodeErrorResponse, he]
    rfl

/-- Witness for C8 (amended) at a concrete request, error and
error-response. -/
theorem encoding_optional_fields_witness :
    (JsonRpcRequest.mk "2.0" (.Number 2) "tools/list" none).params = none ∧
    (JsonRpcError.mk (-32601) "nope" none).data = none ∧
    (JsonRpcErrorResponse.mk "2.0" none ⟨-32700, "Parse error", none⟩).id = none ∧
    (jget "params" (encodeRequest ⟨"2.0", .Number 2, "tools/list", none⟩) = none ∧
     jget "data" (encodeRpcError ⟨-32601, "nope", none⟩) = none ∧
     jget "id" (encodeErrorResponse ⟨"2.0", none, ⟨-32700, "Parse error", none⟩⟩) =
       some .null ∧
     (∀ n, encodeRequestId (.Number n) = .num n) ∧
     (∀ s, encodeRequestId (.String s) = .str s)) :=
  ⟨rfl, rfl, rfl,
   encoding_optional_fields ⟨"2.0", .Number 2, "tools/list", none⟩ ⟨-32601, "nope", none⟩
     ⟨"2.0", none, ⟨-32700, "Parse error", none⟩⟩ rfl rfl rfl⟩

/-- C9 counterexample: an ErrorResponse whose error `data` is `Some(null)`
does not round-trip — serde serializes `Some(Value::Null)` as `"data":
null`, which decodes back to `None`, so the decoded error payload differs
from the original. -/
theorem roundtrip_some_null_data_fails :
    decodeMessage (encodeMessage
        (.error ⟨"2.0", some (.Number 1), ⟨-32603, "boom", some .null⟩⟩)) =
      some (.error ⟨"2.0", some (.Number 1), ⟨-32603, "boom", none⟩⟩) ∧
    (JsonRpcError.mk (-32603) "boom" none).data ≠
      (JsonRpcError.mk (-32603) "boom" (some .null)).data :=
  ⟨rfl, by simp⟩

/-- C9 (amended): encoding then decoding through the untagged four-variant
decoder is the identity on every Response, and on every ErrorResponse
whose error `data` is not `Some(null)` (a `Some(null)` data payload
decodes back to `None`). -/
theorem roundtrip_response_error_messages (r : JsonRpcResponse)
    (e : JsonRpcErrorResponse) (h : e.error.data ≠ some .null) :
    decodeMessage (encodeMessage (.response r)) = some (.response r) ∧
    decodeMessage (encodeMessage (.error e)) = some (.error e) := by
  constructor
  · obtain ⟨j, id, res⟩ := r
    cases id <;> rfl
  · rcases e with ⟨j, id, c, msg, d⟩
    rcases id with _ | (n | s) <;> rcases d with _ | (_ | b | m | s2 | xs | fs) <;>
      first
        | rfl
        | exact absurd rfl h

/-- Witness for C9 (amended) at a concrete Response and a concrete
ErrorResponse. -/
theorem roundtrip_response_error_messages_witness :
    (JsonRpcErrorResponse.mk "2.0" (some (.String "a")) ⟨-32601, "nope", none⟩).error.data ≠
      some .null ∧
    decodeMessage (encodeMessage (.response ⟨"2.0", .Number 7, .str "ok"⟩)) =
      some (.response ⟨"2.0", .Number 7, .str "ok"⟩) ∧
    decodeMessage (encodeMessage
        (.error ⟨"2.0", some (.String "a"), ⟨-32601, "nope", none⟩⟩)) =
      some (.error ⟨"2.0", some (.String "a"), ⟨-32601, "nope", none⟩⟩) := by
  have hrt := roundtrip_response_error_messages ⟨"2.0", .Number 7, .str "ok"⟩
    ⟨"2.0", some (.String "a"), ⟨-32601, "nope", none⟩⟩ (by simp)
  exact ⟨by simp, hrt.1, hrt.2⟩
